import Mathlib

/-!
Shallow embedding of the n8n chat-assistant demo (chat widget, chat proxy,
transcription proxy, session identity) and proofs about its behaviour.

Modelling conventions:
* JavaScript strings are Lean strings; the external primitives
  String.prototype.trim, toLowerCase, startsWith and includes are modelled by
  executable list-based functions below.
* JSON values are modelled by the inductive JSValue; JSON.parse is an external
  library primitive and is passed around as an abstract function
  String -> Option JSValue.
* Network effects are modelled by outcome functions: the environment decides,
  per attempt, whether fetch resolves (status, body) or rejects (abort or
  network error).
* Timers only sequence continuations; the durations handed to setTimeout and
  to the backoff delays are recorded as data so that the retry/backoff policy
  can be stated.
-/

namespace ChatDemo

/- ───────────────────────── JS string primitives ───────────────────────── -/

/-- Whitespace test used by the model of the JS trim primitive. -/
def wsChar (c : Char) : Bool := c == ' ' || c == '\t' || c == '\n' || c == '\r'

/-- Drop trailing characters satisfying wsChar, keeping order (structural). -/
def trimRight : List Char → List Char
  | [] => []
  | c :: cs =>
    match trimRight cs with
    | [] => if wsChar c then [] else [c]
    | res => c :: res

/-- Model of the JS String.prototype.trim primitive. -/
def jsTrim (s : String) : String := ⟨trimRight (s.data.dropWhile wsChar)⟩

/-- Model of the JS String.prototype.toLowerCase primitive (ASCII). -/
def jsLower (s : String) : String := ⟨s.data.map Char.toLower⟩

/-- Does the first list lead (appear as an initial segment of) the second? -/
def leadsWith : List Char → List Char → Bool
  | [], _ => true
  | _ :: _, [] => false
  | p :: ps, c :: cs => p == c && leadsWith ps cs

/-- Model of the JS String.prototype.startsWith primitive. -/
def jsStartsWith (s pre : String) : Bool := leadsWith pre.data s.data

/-- Does the second list occur contiguously inside the first? -/
def hasSub : List Char → List Char → Bool
  | [], pat => pat.isEmpty
  | c :: cs, pat => leadsWith pat (c :: cs) || hasSub cs pat

/-- Model of the JS String.prototype.includes primitive. -/
def jsIncludes (s sub : String) : Bool := hasSub s.data sub.data

/- lemmas about the string primitives -/

theorem string_eq_of_data {a b : String} (h : a.data = b.data) : a = b := by
  cases a; cases b; cases h; rfl

theorem data_of_append (a b : String) : (a ++ b).data = a.data ++ b.data := by
  cases a; cases b; rfl

theorem dropWhile_self_of_dropWhile (p : Char → Bool) :
    ∀ l : List Char, (l.dropWhile p).dropWhile p = l.dropWhile p := by
  intro l
  induction l with
  | nil => rfl
  | cons c cs ih =>
    by_cases h : p c = true
    · simp [List.dropWhile, h, ih]
    · simp [List.dropWhile, h]

theorem trimRight_head_shape (c : Char) (cs : List Char) :
    trimRight (c :: cs) = [] ∨ ∃ res, trimRight (c :: cs) = c :: res := by
  simp only [trimRight]
  cases h : trimRight cs with
  | nil =>
    by_cases hw : wsChar c = true
    · left; simp [hw]
    · right; exact ⟨[], by simp [hw]⟩
  | cons x xs => right; exact ⟨x :: xs, rfl⟩

theorem length_dropWhile_le (p : Char → Bool) :
    ∀ l : List Char, (l.dropWhile p).length ≤ l.length := by
  intro l
  induction l with
  | nil => exact Nat.le_refl _
  | cons c cs ih =>
    by_cases h : p c = true
    · simp only [List.dropWhile, h]
      exact Nat.le_trans ih (Nat.le_succ _)
    · simp only [List.dropWhile, h]
      exact Nat.le_refl _

theorem trimRight_trimRight : ∀ l : List Char, trimRight (trimRight l) = trimRight l := by
  intro l
  induction l with
  | nil => rfl
  | cons c cs ih =>
    cases h : trimRight cs with
    | nil =>
      by_cases hw : wsChar c = true
      · simp [trimRight, h, hw]
      · simp [trimRight, h, hw]
    | cons x xs =>
      have hx : trimRight (x :: xs) = x :: xs := by rw [← h, ih, h]
      have hcc : trimRight (c :: cs) = c :: x :: xs := by simp [trimRight, h]
      rw [hcc, trimRight, hx]

theorem dropWhile_trimRight_of_fixed (l : List Char)
    (h : l.dropWhile wsChar = l) : (trimRight l).dropWhile wsChar = trimRight l := by
  cases l with
  | nil => rfl
  | cons c cs =>
    have hc : wsChar c = false := by
      cases hcc : wsChar c with
      | false => rfl
      | true =>
        exfalso
        rw [List.dropWhile, hcc] at h
        have hlen := congrArg List.length h
        have hle := length_dropWhile_le wsChar cs
        simp at hlen
        omega
    rcases trimRight_head_shape c cs with h0 | ⟨res, hres⟩
    · simp [h0]
    · rw [hres, List.dropWhile]
      simp [hc]

theorem jsTrim_idem (s : String) : jsTrim (jsTrim s) = jsTrim s := by
  apply string_eq_of_data
  show trimRight ((trimRight (s.data.dropWhile wsChar)).dropWhile wsChar)
      = trimRight (s.data.dropWhile wsChar)
  rw [dropWhile_trimRight_of_fixed _ (dropWhile_self_of_dropWhile wsChar s.data)]
  exact trimRight_trimRight _

theorem leadsWith_mem : ∀ (pat l : List Char), leadsWith pat l = true →
    ∀ c ∈ pat, c ∈ l := by
  intro pat
  induction pat with
  | nil => intro l _ c hc; cases hc
  | cons p ps ih =>
    intro l h c hc
    cases l with
    | nil => simp [leadsWith] at h
    | cons x xs =>
      simp only [leadsWith, Bool.and_eq_true, beq_iff_eq] at h
      rcases hc with _ | hc
      · simp [h.1]
      · exact List.mem_cons_of_mem _ (ih xs h.2 c (by assumption))

theorem hasSub_mem : ∀ (l pat : List Char), hasSub l pat = true →
    ∀ c ∈ pat, c ∈ l := by
  intro l
  induction l with
  | nil =>
    intro pat h c hc
    simp only [hasSub, List.isEmpty_iff] at h
    subst h; cases hc
  | cons x xs ih =>
    intro pat h c hc
    simp only [hasSub, Bool.or_eq_true] at h
    rcases h with h | h
    · exact leadsWith_mem pat (x :: xs) h c hc
    · exact List.mem_cons_of_mem _ (ih pat h c hc)

/- ───────────────────────────── JSON values ─────────────────────────────── -/

/-- JSON/JS values as the proxies and the widget see them.  null also stands
for the JS undefined value: the embedded code only ever tests truthiness and
string-ness, which cannot tell the two apart. -/
inductive JSValue where
  | null : JSValue
  | bool : Bool → JSValue
  | num : Int → JSValue
  | str : String → JSValue
  | arr : List JSValue → JSValue
  | obj : List (String × JSValue) → JSValue

/-- JS truthiness for the modelled values. -/
def truthy : JSValue → Bool
  | .null => false
  | .bool b => b
  | .num n => n != 0
  | .str s => s != ""
  | .arr _ => true
  | .obj _ => true

/-- JS property access v.k on a non-nullish v (and the optional-chaining
form v?.k on any v): field lookup on objects, undefined (merged with null
here) for every other value.  A plain access on null itself throws in JS;
that throw is modelled at the one use site where the source performs a
plain access on a possibly-null value, the ok branch of tryStep. -/
def getField (v : JSValue) (k : String) : JSValue :=
  match v with
  | .obj fs => (fs.lookup k).getD .null
  | _ => .null

/-- Is the value null (or undefined, which null also stands for)?  Exactly
the values on which a plain JS property access throws a TypeError. -/
def isNullish : JSValue → Bool
  | .null => true
  | _ => false

/-- The JS short-circuit expression a || b over modelled values. -/
def jsOr (a b : JSValue) : JSValue := if truthy a then a else b

/-- Does typeof v equal the JS string "object"?  True for objects, arrays and
null, exactly as in JS. -/
def typeofObject : JSValue → Bool
  | .obj _ => true
  | .arr _ => true
  | .null => true
  | _ => false

theorem jsOr_cases (a b : JSValue) : jsOr a b = a ∨ jsOr a b = b := by
  unfold jsOr; split <;> simp

/- ──────────────── chat proxy: extractResponseText (part_001) ───────────── -/

/-- The guard: direct must be truthy, have string typeof, and trim non-empty;
return direct.trim(): yields the trimmed string when the value is a string
that is truthy and trims to something non-empty. -/
def strCheck (v : JSValue) : Option String :=
  match v with
  | .str s => if s != "" && jsTrim s != "" then some (jsTrim s) else none
  | _ => none

/-- Direct candidate chain of the extraction loop:
item.response || item.output || item.text || item.message || item.answer. -/
def directOf (item : JSValue) : JSValue :=
  jsOr (getField item "response") (jsOr (getField item "output")
    (jsOr (getField item "text") (jsOr (getField item "message")
      (getField item "answer"))))

/-- Nested candidate chain of the extraction loop:
item?.json?.response || item?.json?.output || item?.json?.text ||
item?.data?.response || item?.data?.output || item?.body?.response. -/
def nestedOf (item : JSValue) : JSValue :=
  jsOr (getField (getField item "json") "response")
    (jsOr (getField (getField item "json") "output")
      (jsOr (getField (getField item "json") "text")
        (jsOr (getField (getField item "data") "response")
          (jsOr (getField (getField item "data") "output")
            (getField (getField item "body") "response")))))

/-- One iteration of the extraction loop over a single candidate item. -/
def extractFromItem (item : JSValue) : Option String :=
  if truthy item && typeofObject item then
    match strCheck (directOf item) with
    | some s => some s
    | none => strCheck (nestedOf item)
  else none

/-- The extraction loop body: first item that yields text wins. -/
def extractLoop : List JSValue → Option String
  | [] => none
  | it :: rest =>
    match extractFromItem it with
    | some s => some s
    | none => extractLoop rest

/-- extractResponseText from the chat proxy: wrap a non-array payload in a
one-element list, then scan. -/
def extractResponseText (data : JSValue) : Option String :=
  extractLoop (match data with | .arr l => l | v => [v])

/-- All field values the loop can possibly read from one item, in source
order; used to state where an extracted string comes from. -/
def itemCandidates (item : JSValue) : List JSValue :=
  [getField item "response", getField item "output", getField item "text",
   getField item "message", getField item "answer",
   getField (getField item "json") "response",
   getField (getField item "json") "output",
   getField (getField item "json") "text",
   getField (getField item "data") "response",
   getField (getField item "data") "output",
   getField (getField item "body") "response"]

theorem directOf_mem (item : JSValue) : directOf item ∈ itemCandidates item := by
  unfold directOf itemCandidates
  rcases jsOr_cases (getField item "response") (jsOr (getField item "output")
    (jsOr (getField item "text") (jsOr (getField item "message")
      (getField item "answer")))) with h | h <;> rw [h]
  · simp
  · rcases jsOr_cases (getField item "output")
      (jsOr (getField item "text") (jsOr (getField item "message")
        (getField item "answer"))) with h2 | h2 <;> rw [h2]
    · simp
    · rcases jsOr_cases (getField item "text")
        (jsOr (getField item "message") (getField item "answer")) with h3 | h3 <;> rw [h3]
      · simp
      · rcases jsOr_cases (getField item "message") (getField item "answer")
          with h4 | h4 <;> rw [h4] <;> simp

theorem nestedOf_mem (item : JSValue) : nestedOf item ∈ itemCandidates item := by
  unfold nestedOf itemCandidates
  rcases jsOr_cases (getField (getField item "json") "response")
    (jsOr (getField (getField item "json") "output")
      (jsOr (getField (getField item "json") "text")
        (jsOr (getField (getField item "data") "response")
          (jsOr (getField (getField item "data") "output")
            (getField (getField item "body") "response"))))) with h | h <;> rw [h]
  · simp
  · rcases jsOr_cases (getField (getField item "json") "output")
      (jsOr (getField (getField item "json") "text")
        (jsOr (getField (getField item "data") "response")
          (jsOr (getField (getField item "data") "output")
            (getField (getField item "body") "response")))) with h2 | h2 <;> rw [h2]
    · simp
    · rcases jsOr_cases (getField (getField item "json") "text")
        (jsOr (getField (getField item "data") "response")
          (jsOr (getField (getField item "data") "output")
            (getField (getField item "body") "response"))) with h3 | h3 <;> rw [h3]
      · simp
      · rcases jsOr_cases (getField (getField item "data") "response")
          (jsOr (getField (getField item "data") "output")
            (getField (getField item "body") "response")) with h4 | h4 <;> rw [h4]
        · simp
        · rcases jsOr_cases (getField (getField item "data") "output")
            (getField (getField item "body") "response") with h5 | h5 <;> rw [h5] <;> simp

theorem strCheck_sound (v : JSValue) (s : String) (h : strCheck v = some s) :
    s ≠ "" ∧ jsTrim s = s ∧ ∃ t, v = .str t ∧ s = jsTrim t := by
  cases v with
  | str t =>
    have h' : (if t != "" && jsTrim t != "" then some (jsTrim t) else none) = some s := h
    by_cases hc : (t != "" && jsTrim t != "") = true
    · rw [if_pos hc] at h'
      simp only [Option.some.injEq] at h'
      subst h'
      simp only [Bool.and_eq_true, bne_iff_ne, ne_eq] at hc
      exact ⟨hc.2, jsTrim_idem t, t, rfl, rfl⟩
    · rw [if_neg hc] at h'; cases h'
  | null => exact Option.noConfusion h
  | bool b => exact Option.noConfusion h
  | num n => exact Option.noConfusion h
  | arr l => exact Option.noConfusion h
  | obj fs => exact Option.noConfusion h

theorem extractFromItem_sound (item : JSValue) (s : String)
    (h : extractFromItem item = some s) :
    s ≠ "" ∧ jsTrim s = s ∧ ∃ t, JSValue.str t ∈ itemCandidates item ∧ s = jsTrim t := by
  unfold extractFromItem at h
  by_cases hg : (truthy item && typeofObject item) = true
  · rw [if_pos hg] at h
    cases hd : strCheck (directOf item) with
    | some s0 =>
      rw [hd] at h
      simp only [Option.some.injEq] at h
      subst h
      obtain ⟨h1, h2, t, ht, hs⟩ := strCheck_sound _ _ hd
      exact ⟨h1, h2, t, ht ▸ directOf_mem item, hs⟩
    | none =>
      rw [hd] at h
      obtain ⟨h1, h2, t, ht, hs⟩ := strCheck_sound _ _ h
      exact ⟨h1, h2, t, ht ▸ nestedOf_mem item, hs⟩
  · rw [if_neg hg] at h; cases h

theorem extractLoop_sound : ∀ (l : List JSValue) (s : String),
    extractLoop l = some s →
    ∃ item ∈ l, s ≠ "" ∧ jsTrim s = s ∧
      ∃ t, JSValue.str t ∈ itemCandidates item ∧ s = jsTrim t := by
  intro l
  induction l with
  | nil => intro s h; cases h
  | cons it rest ih =>
    intro s h
    unfold extractLoop at h
    cases hi : extractFromItem it with
    | some s0 =>
      rw [hi] at h
      simp only [Option.some.injEq] at h
      subst h
      obtain ⟨h1, h2, t, ht, hs⟩ := extractFromItem_sound it _ hi
      exact ⟨it, by simp, h1, h2, t, ht, hs⟩
    | none =>
      rw [hi] at h
      obtain ⟨item, hm, rest'⟩ := ih s h
      exact ⟨item, List.mem_cons_of_mem _ hm, rest'⟩

/-- Every successful extraction is a non-empty, trim-fixed string obtained by
trimming one of the candidate field values of one of the scanned items. -/
theorem extractResponseText_sound (data : JSValue) (s : String)
    (h : extractResponseText data = some s) :
    s ≠ "" ∧ jsTrim s = s ∧
      ∃ item ∈ (match data with | .arr l => l | v => [v]),
        ∃ t, JSValue.str t ∈ itemCandidates item ∧ s = jsTrim t := by
  unfold extractResponseText at h
  obtain ⟨item, hm, h1, h2, t, ht, hs⟩ := extractLoop_sound _ _ h
  exact ⟨h1, h2, item, hm, t, ht, hs⟩

/- ───────────────── decimal digits of Nat.repr (helper) ─────────────────── -/

theorem digitChar_isDigit (m : Nat) (h : m < 10) : (Nat.digitChar m).isDigit = true := by
  interval_cases m <;> decide

theorem toDigitsCore_chars (fuel : Nat) : ∀ (n : Nat) (ds : List Char) (c : Char),
    c ∈ Nat.toDigitsCore 10 fuel n ds → c ∈ ds ∨ c.isDigit = true := by
  induction fuel with
  | zero => intro n ds c h; exact Or.inl h
  | succ f ih =>
    intro n ds c h
    simp only [Nat.toDigitsCore] at h
    by_cases h0 : n / 10 = 0
    · rw [if_pos h0] at h
      rcases List.mem_cons.mp h with h1 | h1
      · exact Or.inr (h1 ▸ digitChar_isDigit _ (Nat.mod_lt _ (by norm_num)))
      · exact Or.inl h1
    · rw [if_neg h0] at h
      rcases ih (n / 10) (Nat.digitChar (n % 10) :: ds) c h with h1 | h1
      · rcases List.mem_cons.mp h1 with h2 | h2
        · exact Or.inr (h2 ▸ digitChar_isDigit _ (Nat.mod_lt _ (by norm_num)))
        · exact Or.inl h2
      · exact Or.inr h1

theorem repr_chars_digit (n : Nat) : ∀ c ∈ (Nat.repr n).data, c.isDigit = true := by
  intro c hc
  have hdata : (Nat.repr n).data = Nat.toDigits 10 n := rfl
  rw [hdata] at hc
  unfold Nat.toDigits at hc
  rcases toDigitsCore_chars (n + 1) n [] c hc with h | h
  · cases h
  · exact h

/- ─────────────────── JS errors and fetch attempt outcomes ──────────────── -/

/-- A thrown JS error as the embedded code can observe it: an AbortError from
an abort controller, or any other error carrying a message. -/
inductive JsError where
  | abortError : JsError
  | jsError : String → JsError
deriving DecidableEq

/-- The error.name property. -/
def errName : JsError → String
  | .abortError => "AbortError"
  | .jsError _ => "Error"

/-- The error.message property. -/
def errMessage : JsError → String
  | .abortError => "The operation was aborted"
  | .jsError m => m

/-- The decision of the environment for one fetch attempt: the request times out
(AbortError), fails at the network level, or yields an HTTP response whose
body text is kept abstract. -/
inductive AttemptOutcome where
  | abortTimeout : AttemptOutcome
  | netFail : String → AttemptOutcome
  | gotResponse : Nat → String → AttemptOutcome

/-- response.ok for the modelled HTTP status. -/
def okStatus (st : Nat) : Bool := decide (200 ≤ st) && decide (st ≤ 299)

/- ─────────────── chat proxy: fetchWithRetry (part_001) ─────────────────── -/

/-- The loop of fetchWithRetry.  Per attempt the result records the timeout
budget handed to fetchWithTimeout, and each backoff delay awaited between
attempts.  Returns (result, attempt timeout budgets, backoff delays).  The
fuel argument equals retries - attempt + 1 at every call, so the zero-fuel
branch is the fall-through throw after the loop. -/
def retryLoop (outcome : Nat → AttemptOutcome) (retries delayMs timeoutMs : Nat) :
    Nat → Nat → Option JsError → Except JsError (Nat × String) × List Nat × List Nat
  | 0, _, lastErr =>
    (.error (lastErr.getD (.jsError "All retry attempts failed")), [], [])
  | fuel + 1, attempt, lastErr =>
    match outcome attempt with
    | .gotResponse st body =>
      if 500 ≤ st ∧ attempt < retries then
        let r := retryLoop outcome retries delayMs timeoutMs fuel (attempt + 1) lastErr
        (r.1, timeoutMs :: r.2.1, delayMs :: r.2.2)
      else
        (.ok (st, body), [timeoutMs], [])
    | .abortTimeout =>
      if attempt < retries then
        let r := retryLoop outcome retries delayMs timeoutMs fuel (attempt + 1)
          (some .abortError)
        (r.1, timeoutMs :: r.2.1, delayMs :: r.2.2)
      else
        (.error .abortError, [timeoutMs], [])
    | .netFail m =>
      if attempt < retries then
        let r := retryLoop outcome retries delayMs timeoutMs fuel (attempt + 1)
          (some (.jsError m))
        (r.1, timeoutMs :: r.2.1, delayMs :: r.2.2)
      else
        (.error (.jsError m), [timeoutMs], [])

/-- fetchWithRetry from the chat proxy, with its default-shaped options made
explicit at every call site. -/
def fetchWithRetry (outcome : Nat → AttemptOutcome) (retries delayMs timeoutMs : Nat) :
    Except JsError (Nat × String) × List Nat × List Nat :=
  retryLoop outcome retries delayMs timeoutMs retries 1 none

/- ───────────────────── chat proxy: handler (part_001) ──────────────────── -/

/-- isTimeout in the chat proxy catch block:
the error name equals AbortError or the error message includes abort. -/
def isTimeoutErr (e : JsError) : Bool :=
  errName e == "AbortError" || jsIncludes (errMessage e) "abort"

/-- The timeout fallback sentence of the chat proxy. -/
def chatTimeoutMsg : String :=
  "I\x27m taking a bit longer than usual — please send your message again."

/-- The generic fallback sentence of the chat proxy. -/
def chatHiccupMsg : String :=
  "I ran into a hiccup, please try again in a moment."

/-- The catch block of the chat proxy handler: a 500 with a machine detail and
a pre-written human fallback chosen by isTimeout. -/
def chatCatch (e : JsError) : Nat × JSValue :=
  let userMessage := if isTimeoutErr e then chatTimeoutMsg else chatHiccupMsg
  (500, .obj [("error", .str "Failed to process message"),
              ("message", .str (errMessage e)),
              ("response", .str userMessage)])

/-- The chat proxy handler after input validation: call n8n with retry and
timeout, check ok, parse JSON (JSON.parse passed in as an abstract external
primitive), extract the text, and answer 200; every failure flows to
chatCatch. -/
def chatProxyCore (parse : String → Option JSValue) (outcome : Nat → AttemptOutcome)
    (reqSessionId : JSValue) (nowIso : String) : Nat × JSValue :=
  match (fetchWithRetry outcome 2 2000 55000).1 with
  | .error e => chatCatch e
  | .ok (st, raw) =>
    if okStatus st = false then
      chatCatch (.jsError ("n8n webhook error: " ++ Nat.repr st))
    else
      match parse raw with
      | none => chatCatch (.jsError "Invalid JSON from n8n")
      | some data =>
        match extractResponseText data with
        | none => chatCatch (.jsError "No response text found in n8n payload")
        | some responseText =>
          let payload := match data with | .arr l => l.headD .null | v => v
          let returnedSessionId := jsOr (getField payload "sessionId")
            (jsOr (getField (getField payload "json") "sessionId") reqSessionId)
          (200, .obj [("response", .str responseText),
                      ("sessionId", returnedSessionId),
                      ("timestamp", jsOr (getField payload "timestamp") (.str nowIso))])

/-- Body validation of the chat proxy: message required, webhook URL
required, then the core. -/
def chatValidated (parse : String → Option JSValue) (envUrl : Option String)
    (outcome : Nat → AttemptOutcome) (nowIso : String) (body : JSValue) : Nat × JSValue :=
  if truthy (getField body "message") = false then
    (400, .obj [("error", .str "Message is required")])
  else
    match envUrl with
    | none => (500, .obj [("error", .str "Server configuration error")])
    | some _ => chatProxyCore parse outcome (getField body "sessionId") nowIso

/-- The full chat proxy handler: CORS preflight, method check, string-body
re-parse, then validation and the core. -/
def chatHandler (parse : String → Option JSValue) (envUrl : Option String)
    (outcome : Nat → AttemptOutcome) (nowIso : String)
    (method : String) (reqBody : JSValue) : Nat × JSValue :=
  if method == "OPTIONS" then (200, .null)
  else if method != "POST" then (405, .obj [("error", .str "Method not allowed")])
  else
    match reqBody with
    | .str s =>
      match parse s with
      | none => (400, .obj [("error", .str "Invalid JSON body")])
      | some b => chatValidated parse envUrl outcome nowIso b
    | b => chatValidated parse envUrl outcome nowIso b

/- helper lemmas about the error classification -/

theorem abort_not_in_webhook_error (st : Nat) :
    jsIncludes ("n8n webhook error: " ++ Nat.repr st) "abort" = false := by
  cases hb : jsIncludes ("n8n webhook error: " ++ Nat.repr st) "abort" with
  | false => rfl
  | true =>
    exfalso
    have ha : 'a' ∈ ("n8n webhook error: " ++ Nat.repr st).data :=
      hasSub_mem _ _ hb 'a' (by decide)
    rw [data_of_append] at ha
    rcases List.mem_append.mp ha with h | h
    · revert h; decide
    · have := repr_chars_digit st 'a' h
      simp at this

theorem isTimeoutErr_webhook_error (st : Nat) :
    isTimeoutErr (.jsError ("n8n webhook error: " ++ Nat.repr st)) = false := by
  unfold isTimeoutErr errName errMessage
  rw [abort_not_in_webhook_error]
  rfl

/- ───────────── transcription proxy: content-type pipeline ──────────────── -/

/-- Default declared MIME type used when mimeType is absent or falsy. -/
def defaultMime : String := "audio/webm;codecs=opus"

/-- Model of the data-URL regex match audio.match of data colon
([^;]+);base64,(.+) anchored on both sides: the MIME group is the non-empty
run up to the first semicolon, which must be followed by the literal base64
marker, and the payload is the non-empty remainder (the dot excludes line
terminators). -/
def dataUrlMatch (audio : String) : Option (String × String) :=
  if leadsWith "data:".data audio.data then
    let rest := audio.data.drop 5
    let mime := rest.takeWhile (fun c => c != ';')
    match rest.dropWhile (fun c => c != ';') with
    | ';' :: tail =>
      if mime.isEmpty = false && leadsWith "base64,".data tail then
        let payload := tail.drop 7
        if payload.isEmpty = false && payload.all (fun c => c != '\n' && c != '\r') then
          some (⟨mime⟩, ⟨payload⟩)
        else none
      else none
    | _ => none
  else none

/-- detectedMimeType after the data-URL branch: the embedded MIME type when
the audio is a data-URL (none = the 400 malformed-data-URL rejection),
otherwise the declared mimeType with its JS falsy default. -/
def resolveDetected (audio : String) (mimeType : Option String) : Option String :=
  let declared := match mimeType with
    | some m => if m == "" then defaultMime else m
    | none => defaultMime
  if jsStartsWith audio "data:" then (dataUrlMatch audio).map (fun p => p.1)
  else some declared

/-- baseType: detectedMimeType.split(';')[0].trim().toLowerCase(). -/
def baseTypeOf (detected : String) : String :=
  jsLower (jsTrim ⟨detected.data.takeWhile (fun c => c != ';')⟩)

/-- The alias lookup table of the transcription proxy. -/
def mimeMap : List (String × String) :=
  [("audio/x-m4a", "audio/mp4"), ("audio/mpeg", "audio/mp3"),
   ("video/webm", "audio/webm"), ("video/mp4", "audio/mp4")]

/-- contentType: mimeMap[baseType] || baseType. -/
def contentTypeOf (detected : String) : String :=
  (mimeMap.lookup (baseTypeOf detected)).getD (baseTypeOf detected)

/-- The Content-Type forwarded to the transcription engine, none when the
handler rejects the audio as a malformed data URL. -/
def transcribeContentType (audio : String) (mimeType : Option String) : Option String :=
  (resolveDetected audio mimeType).map contentTypeOf

/- ───────────────────── widget: getSessionId ────────────────────────────── -/

/-- The freshly generated token: the session marker, then Date.now(), an
underscore, and a random suffix; the clock reading and the random draw are
inputs of the model. -/
def genSessionToken (now : Nat) (rand : String) : String :=
  "session_" ++ Nat.repr now ++ "_" ++ rand

/-- getSessionId over an explicit localStorage cell: read the key, generate
and store when the read is null or empty (both JS-falsy), and return the
token together with the updated cell. -/
def getSessionId (store : Option String) (now : Nat) (rand : String) :
    String × Option String :=
  let id := store.getD ""
  if id == "" then
    let fresh := genSessionToken now rand
    (fresh, some fresh)
  else (id, store)

/- ───────────────────── widget: sendMessage ─────────────────────────────── -/

/-- Observable widget state touched by sendMessage: the in-flight counter,
whether the typing indicator element exists, and the bot message counter.
The message list, suggestion chips and the slow-notice element are recorded
through the event trace instead. -/
structure WState where
  activeRequests : Int
  typingVisible : Bool
  messageCount : Nat
deriving DecidableEq

/-- Trace events of one logical sendMessage call tree: invocations with their
retryCount, rendered chat bubbles, awaited backoff delays, and counter
mutations. -/
inductive Ev where
  | invoke : Nat → Ev
  | render : JSValue → Bool → Ev
  | waitMs : Nat → Ev
  | incCounter : Ev
  | decCounter : Ev

/-- The decision of the environment for the fetch of one sendMessage invocation:
the fetch rejects, or resolves with a status and a body (none models a body
on which response.json() rejects). -/
inductive SendOutcome where
  | threw : JsError → SendOutcome
  | replied : Nat → Option JSValue → SendOutcome

/-- How the try block of one invocation ends: plain return, a scheduled silent
retry after a backoff, or a thrown error entering the catch block. -/
inductive TryOut where
  | ret : TryOut
  | retryWait : Nat → TryOut
  | err : JsError → TryOut

def widgetTroubleMsg : String :=
  "I\x27m having trouble right now — please try again in a moment."

def widgetDidntCatchMsg : String :=
  "I didn\x27t catch that — could you send it again?"

def widgetTimeoutMsg : String :=
  "I\x27m taking longer than usual — please try sending again."

def widgetHiccupMsg : String :=
  "I ran into a hiccup — please try again in a moment."

/-- The timeout test of the widget: the error name equals AbortError. -/
def widgetIsTimeout (e : JsError) : Bool := errName e == "AbortError"

/-- The catch block of sendMessage: remove the typing indicator
unconditionally; retry once (re-incrementing the counter) for non-timeout
errors, otherwise render the timeout or hiccup bubble.  Note that the catch
path never decrements activeRequests.  Returns the state, the emitted
events, and the backoff to await before re-invoking (none = no retry). -/
def catchStep (rc : Nat) (e : JsError) (s : WState) : WState × List Ev × Option Nat :=
  let s1 := { s with typingVisible := false }
  if rc < 1 && !widgetIsTimeout e then
    ({ s1 with activeRequests := s1.activeRequests + 1 }, [Ev.incCounter], some 3000)
  else
    (s1,
     [Ev.render (.str (if widgetIsTimeout e then widgetTimeoutMsg else widgetHiccupMsg)) false],
     none)

/-- activeRequests = Math.max(0, activeRequests - 1) followed by hiding the
typing indicator only when the counter reached zero. -/
def decState (s : WState) : WState :=
  { s with activeRequests := max 0 (s.activeRequests - 1),
           typingVisible := if max 0 (s.activeRequests - 1) = 0 then false
                            else s.typingVisible }

/-- The try block of sendMessage after the fetch settles.  On a response:
decrement the counter (clamped at zero by Math.max), hide the typing
indicator only at zero, parse the body, then run the non-ok branch or the
reply branch.  The non-ok branch reads the payload with optional chaining
and cannot throw; the reply branch reads it with a plain property access,
so a null payload throws a TypeError into the catch path.  Suggestion-chip
rendering is elided from the trace. -/
def tryStep (rc : Nat) (out : SendOutcome) (s : WState) : WState × List Ev × TryOut :=
  match out with
  | .threw e => (s, [], .err e)
  | .replied st body =>
    let s1 := decState s
    match body with
    | none => (s1, [Ev.decCounter], .err (.jsError "Unexpected end of JSON input"))
    | some data =>
      if okStatus st = false then
        let serverMsg := jsOr (getField data "response") (getField data "message")
        if truthy serverMsg then
          (s1, [Ev.decCounter, Ev.render serverMsg false], .ret)
        else if rc < 1 then
          ({ s1 with activeRequests := s1.activeRequests + 1 },
           [Ev.decCounter, Ev.incCounter], .retryWait 2500)
        else
          (s1, [Ev.decCounter, Ev.render (.str widgetTroubleMsg) false], .ret)
      else if isNullish data then
        (s1, [Ev.decCounter],
         .err (.jsError "Cannot read properties of null (reading \x27response\x27)"))
      else
        let botResponse := jsOr (getField data "response") (getField data "message")
        match botResponse with
        | .str bs =>
          if bs != "" && jsTrim bs != "" then
            ({ s1 with messageCount := s1.messageCount + 1 },
             [Ev.decCounter, Ev.render (.str (jsTrim bs)) false], .ret)
          else if rc < 1 then
            ({ s1 with activeRequests := s1.activeRequests + 1 },
             [Ev.decCounter, Ev.incCounter], .retryWait 2000)
          else
            (s1, [Ev.decCounter, Ev.render (.str widgetDidntCatchMsg) false], .ret)
        | v =>
          if truthy v then
            (s1, [Ev.decCounter], .err (.jsError "botResponse.trim is not a function"))
          else if rc < 1 then
            ({ s1 with activeRequests := s1.activeRequests + 1 },
             [Ev.decCounter, Ev.incCounter], .retryWait 2000)
          else
            (s1, [Ev.decCounter, Ev.render (.str widgetDidntCatchMsg) false], .ret)

/-- State at the moment of the fetch: the first attempt increments the
counter; showTypingIndicator always runs. -/
def preState (rc : Nat) (s0 : WState) : WState :=
  { (if rc == 0 then { s0 with activeRequests := s0.activeRequests + 1 } else s0)
      with typingVisible := true }

/-- Events emitted before the fetch: the invocation itself, and on the first
attempt the user bubble and the counter increment. -/
def preEvs (rc : Nat) (text : String) : List Ev :=
  Ev.invoke rc ::
    (if rc == 0 then [Ev.render (.str text) true, Ev.incCounter] else [])

/-- One sendMessage invocation tree: on the first attempt render the user
bubble and increment the counter; always show the typing indicator; run the
try block; resolve catch and the silent-retry re-invocations.  The fuel
bounds the recursion depth; retryCount < 1 guards every re-invocation so
fuel 2 is exact for a top-level call. -/
def send (outcome : Nat → SendOutcome) : Nat → Nat → String → WState → WState × List Ev
  | 0, _, _, s => (s, [])
  | fuel + 1, rc, text, s0 =>
    let t := tryStep rc (outcome rc) (preState rc s0)
    match t.2.2 with
    | .ret => (t.1, preEvs rc text ++ t.2.1)
    | .retryWait ms =>
      let r := send outcome fuel (rc + 1) text t.1
      (r.1, preEvs rc text ++ t.2.1 ++ [Ev.waitMs ms] ++ r.2)
    | .err e =>
      let c := catchStep rc e t.1
      match c.2.2 with
      | some ms =>
        let r := send outcome fuel (rc + 1) text c.1
        (r.1, preEvs rc text ++ t.2.1 ++ c.2.1 ++ [Ev.waitMs ms] ++ r.2)
      | none => (c.1, preEvs rc text ++ t.2.1 ++ c.2.1)

/-- A top-level sendMessage(text) call. -/
def sendMessage (outcome : Nat → SendOutcome) (text : String) (s : WState) :
    WState × List Ev :=
  send outcome 2 0 text s

def invokesOf (evs : List Ev) : List Nat :=
  evs.filterMap fun e => match e with | .invoke k => some k | _ => none

def waitsOf (evs : List Ev) : List Nat :=
  evs.filterMap fun e => match e with | .waitMs n => some n | _ => none

def rendersOf (evs : List Ev) : List (JSValue × Bool) :=
  evs.filterMap fun e => match e with | .render v u => some (v, u) | _ => none

def decsOf (evs : List Ev) : Nat :=
  (evs.filter fun e => match e with | .decCounter => true | _ => false).length

/- ══════════════════════════ Claim C5 ═══════════════════════════════════ -/

/-- C5 counterexample: the extraction result is not a function of the first
array element alone.  Two payloads share the first element; one yields the
text hi, which sits only in the second element, and the other yields
nothing, so the loop does consult elements after the first. -/
theorem extract_consults_later_elements :
    extractResponseText (.arr [.obj [("foo", .num 1)], .obj [("response", .str "hi")]])
      = some "hi" ∧
    extractResponseText (.arr [.obj [("foo", .num 1)]]) = none ∧
    extractFromItem (.obj [("foo", .num 1)]) = none :=
  ⟨rfl, rfl, rfl⟩

/-- C5 amended: extraction scans the array elements in order and the first
element that yields text wins; elements after the first are consulted
exactly when every earlier element yields no text. -/
theorem extractResponseText_first_match_scan (x : JSValue) (rest : List JSValue) :
    extractResponseText (.arr (x :: rest)) =
      Option.or (extractFromItem x) (extractResponseText (.arr rest)) := by
  cases h : extractFromItem x <;>
    simp [extractResponseText, extractLoop, h, Option.or]

/- ══════════════════════════ Claim C6 ═══════════════════════════════════ -/

theorem retryLoop_terminal (outcome : Nat → AttemptOutcome) (lastErr : Option JsError) :
    retryLoop outcome 2 2000 55000 1 2 lastErr =
      match outcome 2 with
      | .gotResponse st b => (.ok (st, b), [55000], [])
      | .abortTimeout => (.error .abortError, [55000], [])
      | .netFail m => (.error (.jsError m), [55000], []) := by
  cases h : outcome 2 <;> simp [retryLoop, h]

theorem fetchWithRetry_eq (outcome : Nat → AttemptOutcome) :
    fetchWithRetry outcome 2 2000 55000 =
      match outcome 1 with
      | .gotResponse st b =>
        if 500 ≤ st then
          match outcome 2 with
          | .gotResponse st2 b2 => (.ok (st2, b2), [55000, 55000], [2000])
          | .abortTimeout => (.error .abortError, [55000, 55000], [2000])
          | .netFail m => (.error (.jsError m), [55000, 55000], [2000])
        else (.ok (st, b), [55000], [])
      | .abortTimeout =>
        match outcome 2 with
        | .gotResponse st2 b2 => (.ok (st2, b2), [55000, 55000], [2000])
        | .abortTimeout => (.error .abortError, [55000, 55000], [2000])
        | .netFail m => (.error (.jsError m), [55000, 55000], [2000])
      | .netFail m1 =>
        match outcome 2 with
        | .gotResponse st2 b2 => (.ok (st2, b2), [55000, 55000], [2000])
        | .abortTimeout => (.error .abortError, [55000, 55000], [2000])
        | .netFail m => (.error (.jsError m), [55000, 55000], [2000]) := by
  cases h1 : outcome 1 with
  | gotResponse st b =>
    by_cases h : 500 ≤ st
    · have ht := retryLoop_terminal outcome none
      cases h2 : outcome 2 <;> rw [h2] at ht <;>
        simp [fetchWithRetry, retryLoop, h1, h, h2, ht]
    · simp [fetchWithRetry, retryLoop, h1, h]
  | abortTimeout =>
    have ht := retryLoop_terminal outcome (some .abortError)
    cases h2 : outcome 2 <;> rw [h2] at ht <;>
      simp [fetchWithRetry, retryLoop, h1, h2, ht]
  | netFail m1 =>
    have ht := retryLoop_terminal outcome (some (.jsError m1))
    cases h2 : outcome 2 <;> rw [h2] at ht <;>
      simp [fetchWithRetry, retryLoop, h1, h2, ht]

/-- C6: the chat proxy forwards with at most 2 total attempts, every attempt
carries the 55-second per-attempt timeout budget, every backoff between
attempts is 2000 ms, a first-attempt response below 500 is returned
immediately without a second attempt, and a first-attempt 5xx response
leads to exactly one further attempt after one 2000 ms backoff. -/
theorem fetchWithRetry_policy (outcome : Nat → AttemptOutcome) :
    ((fetchWithRetry outcome 2 2000 55000).2.1.length ≤ 2 ∧
     (∀ t ∈ (fetchWithRetry outcome 2 2000 55000).2.1, t = 55000) ∧
     (∀ w ∈ (fetchWithRetry outcome 2 2000 55000).2.2, w = 2000)) ∧
    (∀ st body, outcome 1 = .gotResponse st body → st < 500 →
       fetchWithRetry outcome 2 2000 55000 = (.ok (st, body), [55000], [])) ∧
    (∀ st body, outcome 1 = .gotResponse st body → 500 ≤ st →
       (fetchWithRetry outcome 2 2000 55000).2.1 = [55000, 55000] ∧
       (fetchWithRetry outcome 2 2000 55000).2.2 = [2000]) := by
  have he := fetchWithRetry_eq outcome
  cases h1 : outcome 1 with
  | gotResponse st b =>
    rw [h1] at he
    dsimp only at he
    by_cases h : 500 ≤ st
    · rw [if_pos h] at he
      cases h2 : outcome 2 <;> rw [h2] at he <;> dsimp only at he <;> rw [he] <;>
        refine ⟨⟨by simp, by simp, by simp⟩, ?_, ?_⟩ <;>
          intro st0 b0 heq <;> cases heq
      · intro hlt; omega
      · intro hge; exact ⟨rfl, rfl⟩
      · intro hlt; omega
      · intro hge; exact ⟨rfl, rfl⟩
      · intro hlt; omega
      · intro hge; exact ⟨rfl, rfl⟩
    · rw [if_neg h] at he
      rw [he]
      refine ⟨⟨by simp, by simp, by simp⟩, ?_, ?_⟩ <;>
        intro st0 b0 heq <;> cases heq
      · intro hlt; rfl
      · intro hge; omega
  | abortTimeout =>
    rw [h1] at he
    dsimp only at he
    cases h2 : outcome 2 <;> rw [h2] at he <;> dsimp only at he <;> rw [he] <;>
      refine ⟨⟨by simp, by simp, by simp⟩, ?_, ?_⟩ <;>
        intro st0 b0 heq <;> cases heq
  | netFail m1 =>
    rw [h1] at he
    dsimp only at he
    cases h2 : outcome 2 <;> rw [h2] at he <;> dsimp only at he <;> rw [he] <;>
      refine ⟨⟨by simp, by simp, by simp⟩, ?_, ?_⟩ <;>
        intro st0 b0 heq <;> cases heq

/-- C6 witness: a 503 first attempt is retried (two 55-second attempts, one
2000 ms backoff), and a 404 first attempt is returned without retry. -/
theorem fetchWithRetry_policy_witness :
    ((fetchWithRetry (fun _ => .gotResponse 503 "oops") 2 2000 55000).2.1
        = [55000, 55000] ∧
     (fetchWithRetry (fun _ => .gotResponse 503 "oops") 2 2000 55000).2.2 = [2000]) ∧
    fetchWithRetry (fun _ => .gotResponse 404 "gone") 2 2000 55000
      = (.ok (404, "gone"), [55000], []) :=
  ⟨(fetchWithRetry_policy (fun _ => .gotResponse 503 "oops")).2.2 503 "oops" rfl
      (by omega),
   (fetchWithRetry_policy (fun _ => .gotResponse 404 "gone")).2.1 404 "gone" rfl
      (by omega)⟩

/- ══════════════════════════ Claim C7 ═══════════════════════════════════ -/

theorem chatCatch_fields (e : JsError) :
    (chatCatch e).1 = 500 ∧
    getField (chatCatch e).2 "response"
      = .str (if isTimeoutErr e then chatTimeoutMsg else chatHiccupMsg) := by
  constructor
  · rfl
  · simp [chatCatch, getField, List.lookup]

/-- C7: every post-validation failure of the chat proxy — a timeout
(AbortError) from fetchWithRetry, a non-ok webhook status after retries, an
unparsable body, or a payload with no extractable text — produces a 500
whose body carries a human-readable response string, the timeout sentence
for the abort and the generic hiccup sentence for the rest, and the two
sentences differ. -/
theorem chatProxy_failure_envelope (parse : String → Option JSValue)
    (outcome : Nat → AttemptOutcome) (sid : JSValue) (nowIso : String) :
    ((fetchWithRetry outcome 2 2000 55000).1 = .error .abortError →
       (chatProxyCore parse outcome sid nowIso).1 = 500 ∧
       getField (chatProxyCore parse outcome sid nowIso).2 "response"
         = .str chatTimeoutMsg) ∧
    (∀ st raw, (fetchWithRetry outcome 2 2000 55000).1 = .ok (st, raw) →
       okStatus st = false →
       (chatProxyCore parse outcome sid nowIso).1 = 500 ∧
       getField (chatProxyCore parse outcome sid nowIso).2 "response"
         = .str chatHiccupMsg) ∧
    (∀ st raw, (fetchWithRetry outcome 2 2000 55000).1 = .ok (st, raw) →
       okStatus st = true → parse raw = none →
       (chatProxyCore parse outcome sid nowIso).1 = 500 ∧
       getField (chatProxyCore parse outcome sid nowIso).2 "response"
         = .str chatHiccupMsg) ∧
    (∀ st raw data, (fetchWithRetry outcome 2 2000 55000).1 = .ok (st, raw) →
       okStatus st = true → parse raw = some data →
       extractResponseText data = none →
       (chatProxyCore parse outcome sid nowIso).1 = 500 ∧
       getField (chatProxyCore parse outcome sid nowIso).2 "response"
         = .str chatHiccupMsg) ∧
    chatTimeoutMsg ≠ chatHiccupMsg := by
  refine ⟨?_, ?_, ?_, ?_, by decide⟩
  · intro hf
    have : chatProxyCore parse outcome sid nowIso = chatCatch .abortError := by
      unfold chatProxyCore
      rw [hf]
    rw [this]
    have h := chatCatch_fields .abortError
    have ht : isTimeoutErr .abortError = true := by decide
    rw [ht] at h
    simpa using h
  · intro st raw hf hok
    have : chatProxyCore parse outcome sid nowIso
        = chatCatch (.jsError ("n8n webhook error: " ++ Nat.repr st)) := by
      unfold chatProxyCore
      rw [hf]
      simp [hok]
    rw [this]
    have h := chatCatch_fields (.jsError ("n8n webhook error: " ++ Nat.repr st))
    rw [isTimeoutErr_webhook_error] at h
    simpa using h
  · intro st raw hf hok hp
    have : chatProxyCore parse outcome sid nowIso
        = chatCatch (.jsError "Invalid JSON from n8n") := by
      unfold chatProxyCore
      rw [hf]
      simp [hok, hp]
    rw [this]
    have h := chatCatch_fields (.jsError "Invalid JSON from n8n")
    have ht : isTimeoutErr (.jsError "Invalid JSON from n8n") = false := by decide
    rw [ht] at h
    simpa using h
  · intro st raw data hf hok hp hx
    have : chatProxyCore parse outcome sid nowIso
        = chatCatch (.jsError "No response text found in n8n payload") := by
      unfold chatProxyCore
      rw [hf]
      simp [hok, hp, hx]
    rw [this]
    have h := chatCatch_fields (.jsError "No response text found in n8n payload")
    have ht : isTimeoutErr (.jsError "No response text found in n8n payload") = false := by
      decide
    rw [ht] at h
    simpa using h

/-- C7 witness: the webhook answers 503 with an empty body on both attempts;
the proxy exhausts its two attempts and returns 500 carrying the exact
generic hiccup sentence. -/
theorem chatProxy_failure_envelope_witness :
    (chatProxyCore (fun _ => none) (fun _ => .gotResponse 503 "") .null "t").1 = 500 ∧
    getField (chatProxyCore (fun _ => none) (fun _ => .gotResponse 503 "") .null "t").2
        "response" = .str chatHiccupMsg :=
  (chatProxy_failure_envelope (fun _ => none) (fun _ => .gotResponse 503 "") .null
      "t").2.1 503 "" rfl rfl

/- ══════════════════════════ Claim C10 ══════════════════════════════════ -/

theorem chatProxyCore_200 (parse : String → Option JSValue)
    (outcome : Nat → AttemptOutcome) (sid : JSValue) (nowIso : String)
    (h : (chatProxyCore parse outcome sid nowIso).1 = 200) :
    ∃ s, getField (chatProxyCore parse outcome sid nowIso).2 "response" = .str s ∧
      s ≠ "" ∧ jsTrim s = s := by
  unfold chatProxyCore at h ⊢
  cases hf : (fetchWithRetry outcome 2 2000 55000).1 with
  | error e =>
    rw [hf] at h
    dsimp only at h
    exact absurd h (by simp [chatCatch])
  | ok p =>
    obtain ⟨st, raw⟩ := p
    rw [hf] at h
    dsimp only at h ⊢
    by_cases hok : okStatus st = false
    · rw [if_pos hok] at h
      exact absurd h (by simp [chatCatch])
    · rw [if_neg hok] at h ⊢
      cases hp : parse raw with
      | none =>
        rw [hp] at h
        exact absurd h (by simp [chatCatch])
      | some data =>
        rw [hp] at h
        dsimp only at h ⊢
        cases hx : extractResponseText data with
        | none =>
          rw [hx] at h
          exact absurd h (by simp [chatCatch])
        | some s =>
          dsimp only
          obtain ⟨h1, h2, _⟩ := extractResponseText_sound data s hx
          refine ⟨s, ?_, h1, h2⟩
          simp [getField, List.lookup]

theorem chatValidated_200 (parse : String → Option JSValue) (envUrl : Option String)
    (outcome : Nat → AttemptOutcome) (nowIso : String) (body : JSValue)
    (h : (chatValidated parse envUrl outcome nowIso body).1 = 200) :
    ∃ s, getField (chatValidated parse envUrl outcome nowIso body).2 "response"
        = .str s ∧ s ≠ "" ∧ jsTrim s = s := by
  unfold chatValidated at h ⊢
  by_cases hm : truthy (getField body "message") = false
  · rw [if_pos hm] at h
    exact absurd h (by simp)
  · rw [if_neg hm] at h ⊢
    cases envUrl with
    | none => exact absurd h (by simp)
    | some u => exact chatProxyCore_200 parse outcome _ nowIso h

theorem chatHandler_post (parse : String → Option JSValue) (envUrl : Option String)
    (outcome : Nat → AttemptOutcome) (nowIso : String) (reqBody : JSValue) :
    chatHandler parse envUrl outcome nowIso "POST" reqBody =
      match reqBody with
      | .str s =>
        match parse s with
        | none => (400, .obj [("error", .str "Invalid JSON body")])
        | some b => chatValidated parse envUrl outcome nowIso b
      | b => chatValidated parse envUrl outcome nowIso b := rfl

/-- C10: a successful extraction is always a non-empty trim-fixed string
obtained by trimming one of the candidate fields of one of the scanned
items; consequently every 200 answer of the chat proxy to a POST carries
such a string in its response field; and a payload whose candidate fields
hold non-string values yields no extractable text. -/
theorem extract_nonblank_invariant :
    (∀ data s, extractResponseText data = some s →
       s ≠ "" ∧ jsTrim s = s ∧
       ∃ item ∈ (match data with | .arr l => l | v => [v]),
         ∃ t, JSValue.str t ∈ itemCandidates item ∧ s = jsTrim t) ∧
    (∀ (parse : String → Option JSValue) (envUrl : Option String)
       (outcome : Nat → AttemptOutcome) (nowIso : String) (reqBody : JSValue),
       (chatHandler parse envUrl outcome nowIso "POST" reqBody).1 = 200 →
       ∃ s, getField (chatHandler parse envUrl outcome nowIso "POST" reqBody).2
           "response" = .str s ∧ s ≠ "" ∧ jsTrim s = s) ∧
    extractResponseText (.obj [("response", .num 7), ("output", .arr []),
      ("text", .bool true)]) = none := by
  refine ⟨?_, ?_, rfl⟩
  · intro data s h
    exact extractResponseText_sound data s h
  · intro parse envUrl outcome nowIso reqBody h
    rw [chatHandler_post] at h ⊢
    cases reqBody with
    | str s =>
      dsimp only at h ⊢
      cases hp : parse s with
      | none =>
        rw [hp] at h
        dsimp only at h
        exact absurd h (by decide)
      | some b =>
        rw [hp] at h
        dsimp only at h
        exact chatValidated_200 parse envUrl outcome nowIso b h
    | null => exact chatValidated_200 parse envUrl outcome nowIso _ h
    | bool v => exact chatValidated_200 parse envUrl outcome nowIso _ h
    | num v => exact chatValidated_200 parse envUrl outcome nowIso _ h
    | arr l => exact chatValidated_200 parse envUrl outcome nowIso _ h
    | obj fs => exact chatValidated_200 parse envUrl outcome nowIso _ h

/-- C10 witness: the webhook answers 200 with a body parsing to an
array-wrapped object whose response field carries padded text; the proxy
answers 200 and its response string is the non-blank trimmed text. -/
theorem extract_nonblank_invariant_witness :
    ∃ s, getField (chatHandler
        (fun _ => some (.arr [.obj [("response", .str "  Hello!  ")]]))
        (some "https://n8n.example/webhook")
        (fun _ => .gotResponse 200 "ignored") "t" "POST"
        (.obj [("message", .str "Hi")])).2 "response" = .str s ∧
      s ≠ "" ∧ jsTrim s = s :=
  extract_nonblank_invariant.2.1
    (fun _ => some (.arr [.obj [("response", .str "  Hello!  ")]]))
    (some "https://n8n.example/webhook")
    (fun _ => .gotResponse 200 "ignored") "t"
    (.obj [("message", .str "Hi")]) rfl

/- ══════════════════════════ Claim C8 ═══════════════════════════════════ -/

theorem dataUrlMatch_starts (audio : String) (m p : String)
    (h : dataUrlMatch audio = some (m, p)) : jsStartsWith audio "data:" = true := by
  unfold dataUrlMatch at h
  by_cases hs : leadsWith "data:".data audio.data = true
  · exact hs
  · rw [if_neg hs] at h; cases h

/-- C8: the Content-Type forwarded to the transcription engine is computed
by: the data-URL embedded MIME type replaces the declared mimeType (which
defaults when absent or empty); then everything after the first semicolon
is stripped, the base trimmed and lowercased; then the four known aliases
are remapped; any other base type is used unchanged. -/
theorem transcribe_content_type_pipeline (audio : String) (mt : String) :
    (∀ m payload (declared : Option String), dataUrlMatch audio = some (m, payload) →
       transcribeContentType audio declared = some (contentTypeOf m)) ∧
    (jsStartsWith audio "data:" = false → mt ≠ "" →
       transcribeContentType audio (some mt) = some (contentTypeOf mt)) ∧
    (jsStartsWith audio "data:" = false →
       transcribeContentType audio none = some (contentTypeOf defaultMime)) ∧
    (contentTypeOf "audio/x-m4a" = "audio/mp4" ∧
     contentTypeOf "audio/mpeg" = "audio/mp3" ∧
     contentTypeOf "video/webm" = "audio/webm" ∧
     contentTypeOf "video/mp4" = "audio/mp4" ∧
     contentTypeOf "AUDIO/WEBM;codecs=opus" = "audio/webm" ∧
     contentTypeOf " Audio/MPEG ;codecs=mp3" = "audio/mp3") ∧
    (∀ d, mimeMap.lookup (baseTypeOf d) = none → contentTypeOf d = baseTypeOf d) := by
  refine ⟨?_, ?_, ?_, by decide, ?_⟩
  · intro m payload declared h
    have hs := dataUrlMatch_starts audio m payload h
    unfold transcribeContentType resolveDetected
    rw [jsStartsWith] at hs
    simp [hs, h, jsStartsWith]
  · intro hs hmt
    unfold transcribeContentType resolveDetected
    rw [jsStartsWith] at hs
    simp [hs, jsStartsWith, hmt]
  · intro hs
    unfold transcribeContentType resolveDetected
    rw [jsStartsWith] at hs
    simp [hs, jsStartsWith]
  · intro d hl
    unfold contentTypeOf
    rw [hl]
    rfl

/-- C8 witness: a data-URL with embedded audio/ogg overrides a declared
audio/webm; a non-data-URL declared audio/x-m4a is remapped to audio/mp4. -/
theorem transcribe_content_type_pipeline_witness :
    transcribeContentType "data:audio/ogg;base64,QUJD" (some "audio/webm")
      = some "audio/ogg" ∧
    transcribeContentType "abc" (some "audio/x-m4a") = some "audio/mp4" :=
  ⟨((transcribe_content_type_pipeline "data:audio/ogg;base64,QUJD" "x").1
      "audio/ogg" "QUJD" (some "audio/webm") rfl).trans (by decide),
   ((transcribe_content_type_pipeline "abc" "audio/x-m4a").2.1 (by decide)
      (by decide)).trans (by decide)⟩

/- ══════════════════════════ Claim C9 ═══════════════════════════════════ -/

theorem underscore_split_inj : ∀ (d1 d2 r1 r2 : List Char),
    (∀ c ∈ d1, c ≠ '_') → (∀ c ∈ d2, c ≠ '_') →
    d1 ++ '_' :: r1 = d2 ++ '_' :: r2 → d1 = d2 ∧ r1 = r2 := by
  intro d1
  induction d1 with
  | nil =>
    intro d2 r1 r2 h1 h2 h
    cases d2 with
    | nil => simpa using h
    | cons b bs =>
      exfalso
      have hb := (List.cons.injEq _ _ _ _).mp h
      exact h2 b (by simp) hb.1.symm
  | cons a as ih =>
    intro d2 r1 r2 h1 h2 h
    cases d2 with
    | nil =>
      exfalso
      have hb := (List.cons.injEq _ _ _ _).mp h
      exact h1 a (by simp) hb.1
    | cons b bs =>
      have hb := (List.cons.injEq _ _ _ _).mp h
      obtain ⟨hd, htl⟩ := ih bs r1 r2 (fun c hc => h1 c (List.mem_cons_of_mem _ hc))
        (fun c hc => h2 c (List.mem_cons_of_mem _ hc)) hb.2
      exact ⟨by rw [hb.1, hd], htl⟩

theorem repr_no_underscore (n : Nat) : ∀ c ∈ (Nat.repr n).data, c ≠ '_' := by
  intro c hc he
  have := repr_chars_digit n c hc
  rw [he] at this
  simp at this

theorem genSessionToken_data (n : Nat) (r : String) :
    (genSessionToken n r).data
      = "session_".data ++ ((Nat.repr n).data ++ '_' :: r.data) := by
  unfold genSessionToken
  rw [data_of_append, data_of_append, data_of_append]
  simp [List.append_assoc]

theorem genSessionToken_ne (n1 n2 : Nat) (r1 r2 : String)
    (hn : Nat.repr n1 ≠ Nat.repr n2) :
    genSessionToken n1 r1 ≠ genSessionToken n2 r2 := by
  intro h
  apply hn
  have hd := congrArg String.data h
  rw [genSessionToken_data, genSessionToken_data] at hd
  have hcancel := List.append_cancel_left hd
  obtain ⟨hrepr, _⟩ := underscore_split_inj _ _ _ _
    (repr_no_underscore n1) (repr_no_underscore n2) hcancel
  exact string_eq_of_data hrepr

theorem genSessionToken_ne_empty (n : Nat) (r : String) : genSessionToken n r ≠ "" := by
  intro h
  have hd := congrArg String.data h
  rw [genSessionToken_data] at hd
  simp at hd

/-- C9: starting from empty storage, a second getSessionId call returns
exactly the token the first call stored (and leaves storage unchanged);
after clearing storage, a call whose clock reading renders differently
yields a different token. -/
theorem getSessionId_scenario (n1 n2 n3 : Nat) (r1 r2 r3 : String)
    (hfresh : Nat.repr n1 ≠ Nat.repr n3) :
    (getSessionId (getSessionId none n1 r1).2 n2 r2).1 = (getSessionId none n1 r1).1 ∧
    (getSessionId (getSessionId none n1 r1).2 n2 r2).2 = (getSessionId none n1 r1).2 ∧
    (getSessionId none n3 r3).1 ≠ (getSessionId none n1 r1).1 := by
  have hne := genSessionToken_ne_empty n1 r1
  have hbe : (genSessionToken n1 r1 == "") = false := by
    cases hb : genSessionToken n1 r1 == "" with
    | false => rfl
    | true => exact absurd (eq_of_beq hb) hne
  have h1 : getSessionId none n1 r1
      = (genSessionToken n1 r1, some (genSessionToken n1 r1)) := rfl
  have h2 : getSessionId (some (genSessionToken n1 r1)) n2 r2
      = (genSessionToken n1 r1, some (genSessionToken n1 r1)) := by
    unfold getSessionId
    simp [hbe]
  rw [h1]
  refine ⟨by rw [h2], by rw [h2], ?_⟩
  exact genSessionToken_ne n3 n1 r3 r1 (Ne.symm hfresh)

/-- C9 witness: with empty storage a call at clock 0 stores its token; a
second call at clock 5 returns the same token; after clearing, a call at
clock 1 returns a different token. -/
theorem getSessionId_scenario_witness :
    (getSessionId (getSessionId none 0 "x").2 5 "y").1 = (getSessionId none 0 "x").1 ∧
    (getSessionId (getSessionId none 0 "x").2 5 "y").2 = (getSessionId none 0 "x").2 ∧
    (getSessionId none 1 "x").1 ≠ (getSessionId none 0 "x").1 :=
  getSessionId_scenario 0 5 1 "x" "y" "x" (by decide)

/- ──────────────── widget: characterization lemmas ──────────────────────── -/

theorem invokesOf_append (a b : List Ev) :
    invokesOf (a ++ b) = invokesOf a ++ invokesOf b := by
  unfold invokesOf; exact List.filterMap_append _ _ _

theorem waitsOf_append (a b : List Ev) :
    waitsOf (a ++ b) = waitsOf a ++ waitsOf b := by
  unfold waitsOf; exact List.filterMap_append _ _ _

theorem rendersOf_append (a b : List Ev) :
    rendersOf (a ++ b) = rendersOf a ++ rendersOf b := by
  unfold rendersOf; exact List.filterMap_append _ _ _

theorem tryStep_threw (rc : Nat) (e : JsError) (s : WState) :
    tryStep rc (.threw e) s = (s, [], .err e) := rfl

theorem tryStep_nonok_msg (rc st : Nat) (data : JSValue) (s : WState)
    (hok : okStatus st = false)
    (hmsg : truthy (jsOr (getField data "response") (getField data "message")) = true) :
    tryStep rc (.replied st (some data)) s
      = (decState s,
         [Ev.decCounter,
          Ev.render (jsOr (getField data "response") (getField data "message")) false],
         .ret) := by
  unfold tryStep
  simp [hok, hmsg]

theorem tryStep_nonok_nomsg_zero (st : Nat) (data : JSValue) (s : WState)
    (hok : okStatus st = false)
    (hmsg : truthy (jsOr (getField data "response") (getField data "message")) = false) :
    tryStep 0 (.replied st (some data)) s
      = ({ decState s with activeRequests := (decState s).activeRequests + 1 },
         [Ev.decCounter, Ev.incCounter], .retryWait 2500) := by
  unfold tryStep
  simp [hok, hmsg]

theorem tryStep_nonok_nomsg_one (rc st : Nat) (data : JSValue) (s : WState)
    (hrc : 1 ≤ rc) (hok : okStatus st = false)
    (hmsg : truthy (jsOr (getField data "response") (getField data "message")) = false) :
    tryStep rc (.replied st (some data)) s
      = (decState s,
         [Ev.decCounter, Ev.render (.str widgetTroubleMsg) false], .ret) := by
  unfold tryStep
  simp [hok, hmsg, Nat.not_lt.mpr hrc]

theorem tryStep_ok_blank_zero (st : Nat) (data : JSValue) (s : WState)
    (hok : okStatus st = true) (hnn : isNullish data = false)
    (hbot : jsOr (getField data "response") (getField data "message") = .null ∨
            ∃ bs, jsOr (getField data "response") (getField data "message") = .str bs ∧
              jsTrim bs = "") :
    tryStep 0 (.replied st (some data)) s
      = ({ decState s with activeRequests := (decState s).activeRequests + 1 },
         [Ev.decCounter, Ev.incCounter], .retryWait 2000) := by
  unfold tryStep
  rcases hbot with hb | ⟨bs, hb, htr⟩
  · simp [hok, hnn, hb, truthy]
  · by_cases hbs : bs = ""
    · simp [hok, hnn, hb, hbs]
    · simp [hok, hnn, hb, htr, hbs]

theorem tryStep_ok_blank_one (rc st : Nat) (data : JSValue) (s : WState)
    (hrc : 1 ≤ rc) (hok : okStatus st = true) (hnn : isNullish data = false)
    (hbot : jsOr (getField data "response") (getField data "message") = .null ∨
            ∃ bs, jsOr (getField data "response") (getField data "message") = .str bs ∧
              jsTrim bs = "") :
    tryStep rc (.replied st (some data)) s
      = (decState s,
         [Ev.decCounter, Ev.render (.str widgetDidntCatchMsg) false], .ret) := by
  unfold tryStep
  rcases hbot with hb | ⟨bs, hb, htr⟩
  · simp [hok, hnn, hb, truthy, Nat.not_lt.mpr hrc]
  · by_cases hbs : bs = ""
    · simp [hok, hnn, hb, hbs, Nat.not_lt.mpr hrc]
    · simp [hok, hnn, hb, htr, hbs, Nat.not_lt.mpr hrc]

theorem catchStep_timeout (rc : Nat) (s : WState) :
    catchStep rc .abortError s
      = ({ s with typingVisible := false },
         [Ev.render (.str widgetTimeoutMsg) false], none) := by
  unfold catchStep
  simp [widgetIsTimeout, errName]

theorem catchStep_net_zero (m : String) (s : WState) :
    catchStep 0 (.jsError m) s
      = ({ s with typingVisible := false, activeRequests := s.activeRequests + 1 },
         [Ev.incCounter], some 3000) := by
  unfold catchStep
  simp [widgetIsTimeout, errName]

theorem catchStep_one (e : JsError) (s : WState) :
    catchStep 1 e s
      = ({ s with typingVisible := false },
         [Ev.render (.str (if widgetIsTimeout e then widgetTimeoutMsg
            else widgetHiccupMsg)) false], none) := by
  unfold catchStep
  simp

theorem tryStep_no_invoke_wait (rc : Nat) (out : SendOutcome) (s : WState) :
    invokesOf (tryStep rc out s).2.1 = [] ∧ waitsOf (tryStep rc out s).2.1 = [] := by
  rcases out with e | ⟨st, body⟩
  · exact ⟨rfl, rfl⟩
  · rcases body with _ | data
    · exact ⟨rfl, rfl⟩
    · simp only [tryStep]
      split
      · split
        · exact ⟨rfl, rfl⟩
        · split
          · exact ⟨rfl, rfl⟩
          · exact ⟨rfl, rfl⟩
      · split
        · exact ⟨rfl, rfl⟩
        · split
          · split
            · exact ⟨rfl, rfl⟩
            · split
              · exact ⟨rfl, rfl⟩
              · exact ⟨rfl, rfl⟩
          · split
            · exact ⟨rfl, rfl⟩
            · split
              · exact ⟨rfl, rfl⟩
              · exact ⟨rfl, rfl⟩

theorem tryStep_one_no_retry (out : SendOutcome) (s : WState) :
    ∀ ms, (tryStep 1 out s).2.2 ≠ .retryWait ms := by
  intro ms
  rcases out with e | ⟨st, body⟩
  · intro h; cases h
  · rcases body with _ | data
    · intro h; cases h
    · simp only [tryStep]
      split
      · split
        · intro h; cases h
        · split
          · omega
          · intro h; cases h
      · split
        · intro h; cases h
        · split
          · split
            · intro h; cases h
            · split
              · omega
              · intro h; cases h
          · split
            · intro h; cases h
            · split
              · omega
              · intro h; cases h

theorem invokes_preEvs (rc : Nat) (text : String) : invokesOf (preEvs rc text) = [rc] := by
  cases h : (rc == 0) <;> simp [preEvs, h, invokesOf]

theorem waits_preEvs (rc : Nat) (text : String) : waitsOf (preEvs rc text) = [] := by
  cases h : (rc == 0) <;> simp [preEvs, h, waitsOf]

theorem invokesOf_render (v : JSValue) (b : Bool) : invokesOf [Ev.render v b] = [] := rfl

theorem waitsOf_render (v : JSValue) (b : Bool) : waitsOf [Ev.render v b] = [] := rfl

theorem send_two_eq (outcome : Nat → SendOutcome) (rc : Nat) (text : String) (s0 : WState) :
    send outcome 2 rc text s0 =
      (let t := tryStep rc (outcome rc) (preState rc s0)
       match t.2.2 with
       | .ret => (t.1, preEvs rc text ++ t.2.1)
       | .retryWait ms =>
         let r := send outcome 1 (rc + 1) text t.1
         (r.1, preEvs rc text ++ t.2.1 ++ [Ev.waitMs ms] ++ r.2)
       | .err e =>
         let c := catchStep rc e t.1
         match c.2.2 with
         | some ms =>
           let r := send outcome 1 (rc + 1) text c.1
           (r.1, preEvs rc text ++ t.2.1 ++ c.2.1 ++ [Ev.waitMs ms] ++ r.2)
         | none => (c.1, preEvs rc text ++ t.2.1 ++ c.2.1)) := rfl

theorem send_one_eq (outcome : Nat → SendOutcome) (text : String) (s : WState) :
    send outcome 1 1 text s =
      (let t := tryStep 1 (outcome 1) (preState 1 s)
       match t.2.2 with
       | .ret => (t.1, preEvs 1 text ++ t.2.1)
       | .retryWait ms =>
         let r := send outcome 0 2 text t.1
         (r.1, preEvs 1 text ++ t.2.1 ++ [Ev.waitMs ms] ++ r.2)
       | .err e =>
         let c := catchStep 1 e t.1
         match c.2.2 with
         | some ms =>
           let r := send outcome 0 2 text c.1
           (r.1, preEvs 1 text ++ t.2.1 ++ c.2.1 ++ [Ev.waitMs ms] ++ r.2)
         | none => (c.1, preEvs 1 text ++ t.2.1 ++ c.2.1)) := rfl

/-- A retryCount-1 invocation never re-invokes and never awaits a backoff. -/
theorem send_one_invokes (outcome : Nat → SendOutcome) (text : String) (s : WState) :
    invokesOf (send outcome 1 1 text s).2 = [1] ∧
    waitsOf (send outcome 1 1 text s).2 = [] := by
  rw [send_one_eq]
  dsimp only
  obtain ⟨hti, htw⟩ := tryStep_no_invoke_wait 1 (outcome 1) (preState 1 s)
  cases ht : (tryStep 1 (outcome 1) (preState 1 s)).2.2 with
  | ret =>
    constructor
    · simp [ht, invokesOf_append, hti, invokes_preEvs]
    · simp [ht, waitsOf_append, htw, waits_preEvs]
  | retryWait ms => exact absurd ht (tryStep_one_no_retry _ _ ms)
  | err e =>
    constructor
    · simp [ht, catchStep_one, invokesOf_append, hti, invokes_preEvs, invokesOf_render]
    · simp [ht, catchStep_one, waitsOf_append, htw, waits_preEvs, waitsOf_render]

theorem invokesOf_dec_render (v : JSValue) (b : Bool) :
    invokesOf [Ev.decCounter, Ev.render v b] = [] := rfl

theorem waitsOf_dec_render (v : JSValue) (b : Bool) :
    waitsOf [Ev.decCounter, Ev.render v b] = [] := rfl

theorem rendersOf_dec_render (v : JSValue) (b : Bool) :
    rendersOf [Ev.decCounter, Ev.render v b] = [(v, b)] := rfl

theorem invokesOf_dec_inc : invokesOf [Ev.decCounter, Ev.incCounter] = [] := rfl

theorem waitsOf_dec_inc : waitsOf [Ev.decCounter, Ev.incCounter] = [] := rfl

theorem rendersOf_dec_inc : rendersOf [Ev.decCounter, Ev.incCounter] = [] := rfl

theorem invokesOf_inc : invokesOf [Ev.incCounter] = [] := rfl

theorem waitsOf_inc : waitsOf [Ev.incCounter] = [] := rfl

theorem rendersOf_inc : rendersOf [Ev.incCounter] = [] := rfl

theorem invokesOf_wait (n : Nat) : invokesOf [Ev.waitMs n] = [] := rfl

theorem waitsOf_wait (n : Nat) : waitsOf [Ev.waitMs n] = [n] := rfl

theorem rendersOf_wait (n : Nat) : rendersOf [Ev.waitMs n] = [] := rfl

theorem rendersOf_render (v : JSValue) (b : Bool) :
    rendersOf [Ev.render v b] = [(v, b)] := rfl

theorem invokesOf_cons_dec (l : List Ev) :
    invokesOf (Ev.decCounter :: l) = invokesOf l := rfl

theorem invokesOf_cons_inc (l : List Ev) :
    invokesOf (Ev.incCounter :: l) = invokesOf l := rfl

theorem invokesOf_cons_wait (n : Nat) (l : List Ev) :
    invokesOf (Ev.waitMs n :: l) = invokesOf l := rfl

theorem invokesOf_cons_render (v : JSValue) (b : Bool) (l : List Ev) :
    invokesOf (Ev.render v b :: l) = invokesOf l := rfl

theorem waitsOf_cons_dec (l : List Ev) :
    waitsOf (Ev.decCounter :: l) = waitsOf l := rfl

theorem waitsOf_cons_inc (l : List Ev) :
    waitsOf (Ev.incCounter :: l) = waitsOf l := rfl

theorem waitsOf_cons_wait (n : Nat) (l : List Ev) :
    waitsOf (Ev.waitMs n :: l) = n :: waitsOf l := rfl

theorem waitsOf_cons_render (v : JSValue) (b : Bool) (l : List Ev) :
    waitsOf (Ev.render v b :: l) = waitsOf l := rfl

theorem rendersOf_cons_dec (l : List Ev) :
    rendersOf (Ev.decCounter :: l) = rendersOf l := rfl

theorem rendersOf_cons_inc (l : List Ev) :
    rendersOf (Ev.incCounter :: l) = rendersOf l := rfl

theorem rendersOf_cons_wait (n : Nat) (l : List Ev) :
    rendersOf (Ev.waitMs n :: l) = rendersOf l := rfl

theorem rendersOf_cons_render (v : JSValue) (b : Bool) (l : List Ev) :
    rendersOf (Ev.render v b :: l) = (v, b) :: rendersOf l := rfl

/-- A retryCount-1 invocation whose try block returns emits exactly its
prelude events followed by the try-block events. -/
theorem send_one_ret_evs (outcome : Nat → SendOutcome) (text : String) (s s2 : WState)
    (evs : List Ev) (ht : tryStep 1 (outcome 1) (preState 1 s) = (s2, evs, .ret)) :
    (send outcome 1 1 text s).2 = preEvs 1 text ++ evs := by
  rw [send_one_eq]
  dsimp only
  rw [ht]

/- ══════════════════════════ Claim C2 ═══════════════════════════════════ -/

/-- C2: a non-ok response whose payload embeds a response or message field
renders that value and never re-invokes; a non-ok response without one on
the first attempt leads to exactly one re-invocation with retryCount 1
after a 2500 ms backoff; and when the second attempt again yields a non-ok
response without a message, the generic trouble sentence is rendered. -/
theorem sendMessage_nonok_policy (outcome : Nat → SendOutcome) (text : String)
    (s0 : WState) (st : Nat) (data : JSValue) :
    (∀ rc, outcome rc = .replied st (some data) → okStatus st = false →
       truthy (jsOr (getField data "response") (getField data "message")) = true →
       invokesOf (send outcome 2 rc text s0).2 = [rc] ∧
       waitsOf (send outcome 2 rc text s0).2 = [] ∧
       (jsOr (getField data "response") (getField data "message"), false)
         ∈ rendersOf (send outcome 2 rc text s0).2) ∧
    (outcome 0 = .replied st (some data) → okStatus st = false →
       truthy (jsOr (getField data "response") (getField data "message")) = false →
       (invokesOf (sendMessage outcome text s0).2 = [0, 1] ∧
        waitsOf (sendMessage outcome text s0).2 = [2500]) ∧
       (∀ st2 data2, outcome 1 = .replied st2 (some data2) → okStatus st2 = false →
          truthy (jsOr (getField data2 "response") (getField data2 "message")) = false →
          (JSValue.str widgetTroubleMsg, false)
            ∈ rendersOf (sendMessage outcome text s0).2)) := by
  constructor
  · intro rc hout hok hmsg
    have ht : tryStep rc (outcome rc) (preState rc s0)
        = (decState (preState rc s0),
           [Ev.decCounter,
            Ev.render (jsOr (getField data "response") (getField data "message")) false],
           .ret) := by
      rw [hout]; exact tryStep_nonok_msg rc st data _ hok hmsg
    have he : send outcome 2 rc text s0
        = (decState (preState rc s0),
           preEvs rc text ++
             [Ev.decCounter,
              Ev.render (jsOr (getField data "response") (getField data "message")) false]) := by
      rw [send_two_eq]
      dsimp only
      rw [ht]
    rw [he]
    refine ⟨?_, ?_, ?_⟩
    · simp [invokesOf_append, invokes_preEvs, invokesOf_dec_render]
    · simp [waitsOf_append, waits_preEvs, waitsOf_dec_render]
    · simp [rendersOf_append, rendersOf_dec_render]
  · intro hout hok hmsg
    obtain ⟨sR, hsR⟩ : ∃ sR, tryStep 0 (outcome 0) (preState 0 s0)
        = (sR, [Ev.decCounter, Ev.incCounter], .retryWait 2500) :=
      ⟨_, by rw [hout]; exact tryStep_nonok_nomsg_zero st data _ hok hmsg⟩
    have he : sendMessage outcome text s0
        = ((send outcome 1 1 text sR).1,
           preEvs 0 text ++ [Ev.decCounter, Ev.incCounter] ++ [Ev.waitMs 2500] ++
             (send outcome 1 1 text sR).2) := by
      show send outcome 2 0 text s0 = _
      rw [send_two_eq]
      dsimp only
      rw [hsR]
    obtain ⟨hi1, hw1⟩ := send_one_invokes outcome text sR
    constructor
    · rw [he]
      constructor
      · simp [invokesOf_append, invokes_preEvs, invokesOf_dec_inc, invokesOf_wait,
          invokesOf_cons_dec, invokesOf_cons_inc, invokesOf_cons_wait, hi1]
      · simp [waitsOf_append, waits_preEvs, waitsOf_dec_inc, waitsOf_wait,
          waitsOf_cons_dec, waitsOf_cons_inc, waitsOf_cons_wait, hw1]
    · intro st2 data2 hout2 hok2 hmsg2
      obtain ⟨sR2, hsR2⟩ : ∃ s2, tryStep 1 (outcome 1) (preState 1 sR)
          = (s2, [Ev.decCounter, Ev.render (.str widgetTroubleMsg) false], .ret) :=
        ⟨_, by
          rw [hout2]
          exact tryStep_nonok_nomsg_one 1 st2 data2 _ (Nat.le_refl 1) hok2 hmsg2⟩
      have hrest := send_one_ret_evs outcome text sR _ _ hsR2
      rw [he, hrest]
      simp [rendersOf_append, rendersOf_dec_inc, rendersOf_wait, rendersOf_dec_render,
        rendersOf_cons_dec, rendersOf_cons_inc, rendersOf_cons_wait, rendersOf_cons_render]

/-- C2 witness: a 500 with an empty JSON object body is retried exactly once
with retryCount 1 after 2500 ms. -/
theorem sendMessage_nonok_policy_witness :
    invokesOf (sendMessage (fun _ => .replied 500 (some (.obj []))) "Hi"
        ⟨0, false, 0⟩).2 = [0, 1] ∧
    waitsOf (sendMessage (fun _ => .replied 500 (some (.obj []))) "Hi"
        ⟨0, false, 0⟩).2 = [2500] :=
  ((sendMessage_nonok_policy (fun _ => .replied 500 (some (.obj []))) "Hi"
      ⟨0, false, 0⟩ 500 (.obj [])).2 rfl (by decide) (by decide)).1

/- ══════════════════════════ Claim C3 ═══════════════════════════════════ -/

/-- C3 counterexample: an ok 200 whose body parses to JSON null has no
response or message field at all — the normalized reply is absent — yet
the widget does not take the empty-reply path: the plain property access
on the null payload throws, so the silent retry waits 3000 ms (the
thrown-failure backoff, not 2000 ms) and the second failure renders the
hiccup sentence, not the widgetDidntCatchMsg sentence. -/
theorem sendMessage_null_payload_counterexample :
    jsOr (getField JSValue.null "response") (getField JSValue.null "message")
      = JSValue.null ∧
    okStatus 200 = true ∧
    waitsOf (sendMessage (fun _ => .replied 200 (some .null)) "Hi"
        ⟨0, false, 0⟩).2 = [3000] ∧
    rendersOf (sendMessage (fun _ => .replied 200 (some .null)) "Hi"
        ⟨0, false, 0⟩).2
      = [(.str "Hi", true), (.str widgetHiccupMsg, false)] ∧
    widgetHiccupMsg ≠ widgetDidntCatchMsg :=
  ⟨rfl, rfl, rfl, rfl, by decide⟩

/-- C3 amended: an ok response whose payload is not null and whose
normalized reply (response else message) is absent or blank after trimming
is, on the first attempt, re-invoked exactly once with retryCount 1 after
a 2000 ms backoff; when the second attempt is again ok with a non-null
payload and an absent or blank reply, the exact widgetDidntCatchMsg
sentence is rendered.  A null payload is excluded: there the plain
property access throws and the thrown-failure path runs instead. -/
theorem sendMessage_empty_reply_policy (outcome : Nat → SendOutcome) (text : String)
    (s0 : WState) (st : Nat) (data : JSValue) :
    outcome 0 = .replied st (some data) → okStatus st = true →
    isNullish data = false →
    (jsOr (getField data "response") (getField data "message") = .null ∨
     ∃ bs, jsOr (getField data "response") (getField data "message") = .str bs ∧
       jsTrim bs = "") →
    (invokesOf (sendMessage outcome text s0).2 = [0, 1] ∧
     waitsOf (sendMessage outcome text s0).2 = [2000]) ∧
    (∀ st2 data2, outcome 1 = .replied st2 (some data2) → okStatus st2 = true →
       isNullish data2 = false →
       (jsOr (getField data2 "response") (getField data2 "message") = .null ∨
        ∃ bs, jsOr (getField data2 "response") (getField data2 "message") = .str bs ∧
          jsTrim bs = "") →
       (JSValue.str widgetDidntCatchMsg, false)
         ∈ rendersOf (sendMessage outcome text s0).2) := by
  intro hout hok hnn hblank
  obtain ⟨sR, hsR⟩ : ∃ sR, tryStep 0 (outcome 0) (preState 0 s0)
      = (sR, [Ev.decCounter, Ev.incCounter], .retryWait 2000) :=
    ⟨_, by rw [hout]; exact tryStep_ok_blank_zero st data _ hok hnn hblank⟩
  have he : sendMessage outcome text s0
      = ((send outcome 1 1 text sR).1,
         preEvs 0 text ++ [Ev.decCounter, Ev.incCounter] ++ [Ev.waitMs 2000] ++
           (send outcome 1 1 text sR).2) := by
    show send outcome 2 0 text s0 = _
    rw [send_two_eq]
    dsimp only
    rw [hsR]
  obtain ⟨hi1, hw1⟩ := send_one_invokes outcome text sR
  constructor
  · rw [he]
    constructor
    · simp [invokesOf_append, invokes_preEvs, invokesOf_dec_inc, invokesOf_wait,
        invokesOf_cons_dec, invokesOf_cons_inc, invokesOf_cons_wait, hi1]
    · simp [waitsOf_append, waits_preEvs, waitsOf_dec_inc, waitsOf_wait,
        waitsOf_cons_dec, waitsOf_cons_inc, waitsOf_cons_wait, hw1]
  · intro st2 data2 hout2 hok2 hnn2 hblank2
    obtain ⟨sR2, hsR2⟩ : ∃ s2, tryStep 1 (outcome 1) (preState 1 sR)
        = (s2, [Ev.decCounter, Ev.render (.str widgetDidntCatchMsg) false], .ret) :=
      ⟨_, by
        rw [hout2]
        exact tryStep_ok_blank_one 1 st2 data2 _ (Nat.le_refl 1) hok2 hnn2 hblank2⟩
    have hrest := send_one_ret_evs outcome text sR _ _ hsR2
    rw [he, hrest]
    simp [rendersOf_append, rendersOf_dec_inc, rendersOf_wait, rendersOf_dec_render,
      rendersOf_cons_dec, rendersOf_cons_inc, rendersOf_cons_wait, rendersOf_cons_render]

/-- C3 witness: two successive ok responses whose reply trims to blank lead
to one 2000 ms retry and then the exact widgetDidntCatchMsg sentence. -/
theorem sendMessage_empty_reply_policy_witness :
    (invokesOf (sendMessage (fun _ => .replied 200 (some (.obj [("response",
        .str "   ")]))) "Hi" ⟨0, false, 0⟩).2 = [0, 1] ∧
     waitsOf (sendMessage (fun _ => .replied 200 (some (.obj [("response",
        .str "   ")]))) "Hi" ⟨0, false, 0⟩).2 = [2000]) ∧
    (JSValue.str widgetDidntCatchMsg, false)
      ∈ rendersOf (sendMessage (fun _ => .replied 200 (some (.obj [("response",
          .str "   ")]))) "Hi" ⟨0, false, 0⟩).2 := by
  have h := sendMessage_empty_reply_policy
    (fun _ => .replied 200 (some (.obj [("response", .str "   ")]))) "Hi"
    ⟨0, false, 0⟩ 200 (.obj [("response", .str "   ")]) rfl (by decide) rfl
    (Or.inr ⟨"   ", rfl, rfl⟩)
  exact ⟨h.1, h.2 200 (.obj [("response", .str "   ")]) rfl (by decide) rfl
    (Or.inr ⟨"   ", rfl, rfl⟩)⟩

/- ══════════════════════════ Claim C4 ═══════════════════════════════════ -/

/-- C4: a fetch rejection with AbortError is never retried — whatever the
retryCount, the invocation re-invokes nothing, awaits no backoff, and
renders the timeout sentence; a non-timeout thrown failure on the first
attempt is re-invoked exactly once with retryCount 1 after a 3000 ms
backoff. -/
theorem sendMessage_thrown_policy (outcome : Nat → SendOutcome) (text : String)
    (s0 : WState) :
    (∀ rc, outcome rc = .threw .abortError →
       invokesOf (send outcome 2 rc text s0).2 = [rc] ∧
       waitsOf (send outcome 2 rc text s0).2 = [] ∧
       (JSValue.str widgetTimeoutMsg, false)
         ∈ rendersOf (send outcome 2 rc text s0).2) ∧
    (∀ m, outcome 0 = .threw (.jsError m) →
       invokesOf (sendMessage outcome text s0).2 = [0, 1] ∧
       waitsOf (sendMessage outcome text s0).2 = [3000]) := by
  constructor
  · intro rc hout
    have ht : tryStep rc (outcome rc) (preState rc s0)
        = (preState rc s0, [], .err .abortError) := by
      rw [hout]; exact tryStep_threw rc _ _
    have he : send outcome 2 rc text s0
        = ({ preState rc s0 with typingVisible := false },
           preEvs rc text ++ [] ++ [Ev.render (.str widgetTimeoutMsg) false]) := by
      rw [send_two_eq]
      dsimp only
      rw [ht]
      dsimp only
      rw [catchStep_timeout]
    rw [he]
    refine ⟨?_, ?_, ?_⟩
    · simp [invokesOf_append, invokes_preEvs, invokesOf_render]
    · simp [waitsOf_append, waits_preEvs, waitsOf_render]
    · simp [rendersOf_append, rendersOf_render]
  · intro m hout
    have ht : tryStep 0 (outcome 0) (preState 0 s0)
        = (preState 0 s0, [], .err (.jsError m)) := by
      rw [hout]; exact tryStep_threw 0 _ _
    obtain ⟨sR, hsR⟩ : ∃ sR, catchStep 0 (.jsError m) (preState 0 s0)
        = (sR, [Ev.incCounter], some 3000) := ⟨_, catchStep_net_zero m _⟩
    have he : sendMessage outcome text s0
        = ((send outcome 1 1 text sR).1,
           preEvs 0 text ++ [] ++ [Ev.incCounter] ++ [Ev.waitMs 3000] ++
             (send outcome 1 1 text sR).2) := by
      show send outcome 2 0 text s0 = _
      rw [send_two_eq]
      dsimp only
      rw [ht]
      dsimp only
      rw [hsR]
    obtain ⟨hi1, hw1⟩ := send_one_invokes outcome text sR
    rw [he]
    constructor
    · simp [invokesOf_append, invokes_preEvs, invokesOf_inc, invokesOf_wait,
        invokesOf_cons_inc, invokesOf_cons_wait, hi1]
    · simp [waitsOf_append, waits_preEvs, waitsOf_inc, waitsOf_wait,
        waitsOf_cons_inc, waitsOf_cons_wait, hw1]

/-- C4 witness: an AbortError on the first attempt is not retried and shows
the timeout sentence; a network error on the first attempt waits 3000 ms
and re-invokes once. -/
theorem sendMessage_thrown_policy_witness :
    (invokesOf (send (fun _ => .threw .abortError) 2 0 "Hi" ⟨0, false, 0⟩).2 = [0] ∧
     waitsOf (send (fun _ => .threw .abortError) 2 0 "Hi" ⟨0, false, 0⟩).2 = [] ∧
     (JSValue.str widgetTimeoutMsg, false)
       ∈ rendersOf (send (fun _ => .threw .abortError) 2 0 "Hi" ⟨0, false, 0⟩).2) ∧
    (invokesOf (sendMessage (fun _ => .threw (.jsError "socket hang up")) "Hi"
        ⟨0, false, 0⟩).2 = [0, 1] ∧
     waitsOf (sendMessage (fun _ => .threw (.jsError "socket hang up")) "Hi"
        ⟨0, false, 0⟩).2 = [3000]) :=
  ⟨(sendMessage_thrown_policy (fun _ => .threw .abortError) "Hi" ⟨0, false, 0⟩).1 0 rfl,
   (sendMessage_thrown_policy (fun _ => .threw (.jsError "socket hang up")) "Hi"
      ⟨0, false, 0⟩).2 "socket hang up" rfl⟩

/- ══════════════════════════ Claim C1 ═══════════════════════════════════ -/

/-- C1: at the failing input — one sendMessage from an idle widget whose
fetch rejects with AbortError — the invocation settles (it renders the
timeout bubble) yet performs zero counter decrements, leaves activeRequests
at 1, and removes the typing indicator while the counter is still positive,
so neither the decremented-exactly-once property nor the indicator-iff-
positive-counter property of the claim holds on the catch path. -/
theorem sendMessage_abort_counter_leak :
    (sendMessage (fun _ => .threw .abortError) "Hi" ⟨0, false, 0⟩).1.activeRequests = 1 ∧
    (sendMessage (fun _ => .threw .abortError) "Hi" ⟨0, false, 0⟩).1.typingVisible
      = false ∧
    decsOf (sendMessage (fun _ => .threw .abortError) "Hi" ⟨0, false, 0⟩).2 = 0 ∧
    invokesOf (sendMessage (fun _ => .threw .abortError) "Hi" ⟨0, false, 0⟩).2 = [0] ∧
    rendersOf (sendMessage (fun _ => .threw .abortError) "Hi" ⟨0, false, 0⟩).2
      = [(.str "Hi", true), (.str widgetTimeoutMsg, false)] :=
  ⟨rfl, rfl, rfl, rfl, rfl⟩

end ChatDemo
